import Mathlib

/-!
Verification of the news-api service: data model, data-access layer,
controllers and error translation, embedded shallowly in Lean.
The controller functions mirror src/controllers/articles-controllers.js;
the data-access functions and the error translator are not present in the
source tree and are modelled from the specification (sections 4.1-4.8).
-/

/-- A topic row: slug is the unique identifier. -/
structure Topic where
  slug : String
  description : String
deriving DecidableEq

/-- An article row as stored. -/
structure Article where
  article_id : Nat
  title : String
  topic : String
  author : String
  body : String
  created_at : Nat
  votes : Int
deriving DecidableEq

/-- A comment row as stored. -/
structure Comment where
  comment_id : Nat
  body : String
  article_id : Nat
  author : String
  votes : Int
  created_at : Nat
deriving DecidableEq

/-- The relational store: topics, articles and comments tables. -/
structure Store where
  topics : List Topic
  articles : List Article
  comments : List Comment
deriving DecidableEq

/-- An article as returned by read endpoints: the row plus the aggregated
comment count, kept as a string-typed field. -/
structure ArticleWithCount where
  article : Article
  comment_count : String
deriving DecidableEq

/-- A JSON-ish payload value: a field is either a string or a number. -/
inductive JVal where
  | str (s : String)
  | num (n : Int)
deriving DecidableEq

/-- Typed failures raised by the data-access layer (spec section 7). -/
inductive Failure where
  | invalidInput
  | invalidPostInput
  | invalidPostDataType
  | articleNotFound
  | topicNotFound
  | unhandled
deriving DecidableEq

/-- Modelled from the spec (4.8, app error middleware is not under src):
maps a failure kind to an HTTP status and message. -/
def translateFailure : Failure → Nat × String
  | Failure.invalidInput => (400, "Invalid input")
  | Failure.invalidPostInput => (400, "Invalid post input")
  | Failure.invalidPostDataType => (400, "Invalid post data type")
  | Failure.articleNotFound => (404, "Article not found")
  | Failure.topicNotFound => (404, "Topic not found")
  | Failure.unhandled => (500, "Internal Server Error")

/-- What a handler sends back: a success payload with its status, or a
translated failure with status and message. -/
inductive RouteResult (α : Type) where
  | success (status : Nat) (payload : α)
  | failure (status : Nat) (msg : String)
deriving DecidableEq

/-- Controller glue: a successful data-access result is sent with the
given status, a failure goes through the error translator. -/
def toResponse {α : Type} (okStatus : Nat) : Except Failure α → RouteResult α
  | Except.ok v => RouteResult.success okStatus v
  | Except.error e => RouteResult.failure (translateFailure e).1 (translateFailure e).2

/-- Modelled from the spec (4.1, validation utilities are not under src):
an identifier string is valid only when it is a clean integer literal,
that is, nonempty and made of digits only. -/
def isValidId (s : String) : Bool :=
  !s.data.isEmpty && s.data.all Char.isDigit

/-- Digit characters to the natural number they denote. -/
def digitsToNat (l : List Char) : Nat :=
  l.foldl (fun acc c => acc * 10 + (c.toNat - 48)) 0

/-- Parse an identifier string; malformed input gives none. -/
def parseId (s : String) : Option Nat :=
  match isValidId s with
  | true => some (digitsToNat s.data)
  | false => none

/-- Number of comments stored against an article id. -/
def commentCount (st : Store) (id : Nat) : Nat :=
  (st.comments.filter (fun c => c.article_id == id)).length

/-- Modelled from the spec (4.3, articles-models.js is not under src):
fetch one article by identifier string, joined with its aggregated
comment count rendered as a string. -/
def fetchArticle (st : Store) (s : String) : Except Failure ArticleWithCount :=
  match parseId s with
  | none => Except.error Failure.invalidInput
  | some id =>
    match st.articles.find? (fun a => a.article_id == id) with
    | none => Except.error Failure.articleNotFound
    | some a => Except.ok ⟨a, Nat.repr (commentCount st id)⟩

/-- Modelled from the spec (4.4, articles-models.js is not under src):
atomically add a vote delta to the stored count and return the updated
row; missing or non-numeric delta is invalid input, unknown id is not
found. -/
def updateArticleById (st : Store) (s : String) (incVotes : Option JVal) :
    Except Failure (Store × Article) :=
  match parseId s with
  | none => Except.error Failure.invalidInput
  | some id =>
    match incVotes with
    | some (JVal.num d) =>
      match st.articles.find? (fun a => a.article_id == id) with
      | none => Except.error Failure.articleNotFound
      | some a =>
        let st2 : Store :=
          ⟨st.topics,
           st.articles.map (fun b =>
             if b.article_id == id then { b with votes := b.votes + d } else b),
           st.comments⟩
        Except.ok (st2, { a with votes := a.votes + d })
    | _ => Except.error Failure.invalidInput

/-- Modelled from the spec (4.7, articles-models.js is not under src):
comments of an article; a missing article is not found, an article with
no comments gives the empty list. -/
def fetchCommentsByArticleId (st : Store) (s : String) :
    Except Failure (List Comment) :=
  match parseId s with
  | none => Except.error Failure.invalidInput
  | some id =>
    match st.articles.any (fun a => a.article_id == id) with
    | false => Except.error Failure.articleNotFound
    | true => Except.ok (st.comments.filter (fun c => c.article_id == id))

/-- A comment-creation request body: the two expected fields, each absent
or present with a JSON value. -/
structure CommentPayload where
  username : Option JVal
  body : Option JVal
deriving DecidableEq

/-- Modelled from the spec (4.1/4.5, validation utilities are not under
src): a missing required field is invalid post input; a present field of
the wrong type is invalid post data type. -/
def validateCommentPayload (p : CommentPayload) :
    Except Failure (String × String) :=
  match p.username, p.body with
  | none, _ => Except.error Failure.invalidPostInput
  | _, none => Except.error Failure.invalidPostInput
  | some (JVal.str u), some (JVal.str b) => Except.ok (u, b)
  | some _, some _ => Except.error Failure.invalidPostDataType

/-- Next serial comment id: one more than the largest assigned so far. -/
def nextCommentId (st : Store) : Nat :=
  (st.comments.foldl (fun m c => max m c.comment_id) 0) + 1

/-- Modelled from the spec (4.5, comments-models.js is not under src):
insert a comment under an article. Identifier shape first, then article
existence, then payload validation, per the contract order. -/
def createComment (st : Store) (s : String) (p : CommentPayload) (now : Nat) :
    Except Failure (Store × Comment) :=
  match parseId s with
  | none => Except.error Failure.invalidInput
  | some id =>
    match st.articles.any (fun a => a.article_id == id) with
    | false => Except.error Failure.articleNotFound
    | true =>
      match validateCommentPayload p with
      | Except.error e => Except.error e
      | Except.ok (u, b) =>
        let c : Comment := ⟨nextCommentId st, b, id, u, 0, now⟩
        Except.ok (⟨st.topics, st.articles, st.comments ++ [c]⟩, c)

/-- Ordering on naturals by explicit comparison. -/
def natCmp (a b : Nat) : Ordering :=
  if a < b then Ordering.lt else if b < a then Ordering.gt else Ordering.eq

/-- Ordering on integers by explicit comparison. -/
def intCmp (a b : Int) : Ordering :=
  if a < b then Ordering.lt else if b < a then Ordering.gt else Ordering.eq

/-- Ordering on strings by explicit comparison. -/
def strCmp (a b : String) : Ordering :=
  if a < b then Ordering.lt else if b < a then Ordering.gt else Ordering.eq

/-- Modelled from the spec (4.2, articles-models.js is not under src):
compare two articles on one sortable column; the comment-count column
compares the aggregate. Unknown columns never reach this point because
the allow-list is checked first; they fall back to creation time. -/
def articleKeyCmp (st : Store) (col : String) (a b : Article) : Ordering :=
  if col == "votes" then intCmp a.votes b.votes
  else if col == "title" then strCmp a.title b.title
  else if col == "topic" then strCmp a.topic b.topic
  else if col == "author" then strCmp a.author b.author
  else if col == "article_id" then natCmp a.article_id b.article_id
  else if col == "comment_count" then
    natCmp (commentCount st a.article_id) (commentCount st b.article_id)
  else natCmp a.created_at b.created_at

/-- Modelled from the spec (4.2): the resolved sort places a before b when
the key compares strictly in the requested direction, with a stable
secondary tie-break on article_id for equal keys. -/
def articleLE (st : Store) (col : String) (asc : Bool) (a b : Article) : Bool :=
  match articleKeyCmp st col a b with
  | Ordering.lt => asc
  | Ordering.gt => !asc
  | Ordering.eq => Nat.ble a.article_id b.article_id

/-- The sort relation as a proposition, for use with insertion sort. -/
def articleRel (st : Store) (col : String) (asc : Bool) (a b : Article) : Prop :=
  articleLE st col asc a b = true

instance (st : Store) (col : String) (asc : Bool) :
    DecidableRel (articleRel st col asc) := fun a b =>
  inferInstanceAs (Decidable (articleLE st col asc a b = true))

/-- Sort a list of article rows per the resolved column and direction and
attach each aggregated comment count as a string. -/
def sortWithCounts (st : Store) (col : String) (asc : Bool)
    (l : List Article) : List ArticleWithCount :=
  (l.insertionSort (articleRel st col asc)).map
    (fun a => ⟨a, Nat.repr (commentCount st a.article_id)⟩)

/-- Allow-list of sortable article columns (spec 4.1). -/
def allowedSortColumns : List String :=
  ["created_at", "votes", "title", "topic", "author", "article_id",
   "comment_count"]

/-- Resolve the order token (spec 4.1): ascending or descending,
case-insensitive, default descending when absent; anything else is
rejected. Returns true for ascending. -/
def resolveOrder : Option String → Option Bool
  | none => some false
  | some o =>
    if o.toLower == "asc" then some true
    else if o.toLower == "desc" then some false
    else none

/-- Modelled from the spec (4.2, articles-models.js is not under src):
list articles with optional sort column, order and topic filter. Invalid
sort or order is invalid input; a topic filter naming an unknown topic is
not found; otherwise the matching articles are returned sorted, each with
its aggregated comment count. -/
def fetchAllArticles (st : Store) (sort order topic : Option String) :
    Except Failure (List ArticleWithCount) :=
  let col := sort.getD "created_at"
  match allowedSortColumns.contains col with
  | false => Except.error Failure.invalidInput
  | true =>
    match resolveOrder order with
    | none => Except.error Failure.invalidInput
    | some asc =>
      match topic with
      | none => Except.ok (sortWithCounts st col asc st.articles)
      | some t =>
        match st.topics.any (fun tp => tp.slug == t) with
        | false => Except.error Failure.topicNotFound
        | true =>
          Except.ok (sortWithCounts st col asc
            (st.articles.filter (fun a => a.topic == t)))

/-- An article-creation request body: the four expected fields. -/
structure ArticlePayload where
  title : Option JVal
  topic : Option JVal
  author : Option JVal
  body : Option JVal
deriving DecidableEq

/-- Modelled from the spec (4.6): all four fields are required strings. -/
def validateArticlePayload (p : ArticlePayload) :
    Except Failure (String × String × String × String) :=
  match p.title, p.topic, p.author, p.body with
  | some (JVal.str t), some (JVal.str tp), some (JVal.str au),
      some (JVal.str b) => Except.ok (t, tp, au, b)
  | _, _, _, _ => Except.error Failure.invalidInput

/-- Next serial article id: one more than the largest assigned so far. -/
def nextArticleId (st : Store) : Nat :=
  (st.articles.foldl (fun m a => max m a.article_id) 0) + 1

/-- Modelled from the spec (4.6, articles-models.js is not under src):
insert a new article from a validated payload and return the new id. -/
def createArticle (st : Store) (p : ArticlePayload) (now : Nat) :
    Except Failure (Store × Nat) :=
  match validateArticlePayload p with
  | Except.error e => Except.error e
  | Except.ok (t, tp, au, b) =>
    let id := nextArticleId st
    let a : Article := ⟨id, t, tp, au, b, now, 0⟩
    Except.ok (⟨st.topics, st.articles ++ [a], st.comments⟩, id)

/-- Controller getArticleById (src/controllers/articles-controllers.js
lines 20-30): fetch by id, send 200, forward failures. -/
def getArticleByIdRoute (st : Store) (s : String) :
    RouteResult ArticleWithCount :=
  toResponse 200 (fetchArticle st s)

/-- Controller patchArticleById (src/controllers/articles-controllers.js
lines 32-43): update votes, send the updated article with 200. -/
def patchArticleByIdRoute (st : Store) (s : String) (incVotes : Option JVal) :
    RouteResult Article :=
  toResponse 200 (Except.map Prod.snd (updateArticleById st s incVotes))

/-- Controller for listing comments of an article: send 200 with the
list, forward failures. -/
def getCommentsRoute (st : Store) (s : String) : RouteResult (List Comment) :=
  toResponse 200 (fetchCommentsByArticleId st s)

/-- Controller for creating a comment: send 201 with the new comment,
forward failures. -/
def postCommentRoute (st : Store) (s : String) (p : CommentPayload)
    (now : Nat) : RouteResult Comment :=
  toResponse 201 (Except.map Prod.snd (createComment st s p now))

/-- Controller getArticles (src/controllers/articles-controllers.js lines
8-18): list articles, send 200, forward failures. -/
def getArticlesRoute (st : Store) (sort order topic : Option String) :
    RouteResult (List ArticleWithCount) :=
  toResponse 200 (fetchAllArticles st sort order topic)

/-- Controller postArticle (src/controllers/articles-controllers.js lines
45-56): insert via createArticle, then re-fetch the article by its new id
via fetchArticle, as two sequential store operations. The fetchFault
argument injects a store failure on the second round trip, which the
controller only catches and forwards after the insert has committed. -/
def postArticleCtrl (st : Store) (p : ArticlePayload) (now : Nat)
    (fetchFault : Option Failure) : Store × RouteResult ArticleWithCount :=
  match createArticle st p now with
  | Except.error e =>
    (st, RouteResult.failure (translateFailure e).1 (translateFailure e).2)
  | Except.ok (st2, id) =>
    match fetchFault with
    | some e =>
      (st2, RouteResult.failure (translateFailure e).1 (translateFailure e).2)
    | none =>
      match fetchArticle st2 (Nat.repr id) with
      | Except.ok r => (st2, RouteResult.success 201 r)
      | Except.error e =>
        (st2, RouteResult.failure (translateFailure e).1 (translateFailure e).2)

/-- Sample topics, mirroring the seeded test data. -/
def demoTopics : List Topic :=
  [⟨"mitch", "The man, the legend"⟩, ⟨"cats", "Not dogs"⟩]

/-- Sample article 1, mirroring the seeded test data. -/
def demoArticle1 : Article :=
  ⟨1, "Living in the shadow of a great man", "mitch", "butter_bridge",
   "I find this existence challenging", 1594329060, 100⟩

/-- Sample article 2: no comments refer to it. -/
def demoArticle2 : Article :=
  ⟨2, "Sony Vaio; or, The Laptop", "mitch", "icellusedkars",
   "Call me Mitchell", 1602828180, 0⟩

/-- Sample article 3, under the other topic. -/
def demoArticle3 : Article :=
  ⟨3, "Eight pug gifs that remind me of mitch", "cats", "icellusedkars",
   "some gifs", 1604394720, 0⟩

/-- Sample comments: two on article 1, one on article 3. -/
def demoComments : List Comment :=
  [⟨1, "Oh, I have got compassion", 1, "butter_bridge", 16, 1586179020⟩,
   ⟨2, "The beautiful thing about treasure is that it exists", 1,
    "butter_bridge", 14, 1604113380⟩,
   ⟨3, "Replacing the quiet elegance", 3, "icellusedkars", 100, 1583025180⟩]

/-- A sample store used to exhibit the route behaviours concretely. -/
def demoStore : Store :=
  ⟨demoTopics, [demoArticle1, demoArticle2, demoArticle3], demoComments⟩

/-- A string containing a non-digit character fails identifier parsing. -/
lemma parseId_eq_none_of_nondigit {s : String}
    (h : ∃ c ∈ s.data, c.isDigit = false) : parseId s = none := by
  obtain ⟨c, hc, hd⟩ := h
  have hall : s.data.all Char.isDigit = false := by
    rw [List.all_eq_false]
    exact ⟨c, hc, by simp [hd]⟩
  unfold parseId isValidId
  rw [hall]
  simp

/-- C1: every malformed article identifier string, one containing a
non-digit character, makes each of the four identifier-taking routes
(read, vote update, comment list, comment create) respond 400 with the
message Invalid input. -/
theorem malformed_id_routes_400 (st : Store) (s : String) (v : Option JVal)
    (p : CommentPayload) (now : Nat)
    (h : ∃ c ∈ s.data, c.isDigit = false) :
    getArticleByIdRoute st s = RouteResult.failure 400 "Invalid input" ∧
    patchArticleByIdRoute st s v = RouteResult.failure 400 "Invalid input" ∧
    getCommentsRoute st s = RouteResult.failure 400 "Invalid input" ∧
    postCommentRoute st s p now = RouteResult.failure 400 "Invalid input" := by
  have hp := parseId_eq_none_of_nondigit h
  refine ⟨?_, ?_, ?_, ?_⟩ <;>
    simp [getArticleByIdRoute, patchArticleByIdRoute, getCommentsRoute,
      postCommentRoute, fetchArticle, updateArticleById,
      fetchCommentsByArticleId, createComment, toResponse, translateFailure,
      Except.map, hp]

/-- C1 witness: the injection-style identifier from the test suite hits
all four routes with 400 Invalid input on the sample store. -/
theorem malformed_id_routes_400_witness :
    getArticleByIdRoute demoStore "xzibit" =
      RouteResult.failure 400 "Invalid input" ∧
    patchArticleByIdRoute demoStore "xzibit" (some (JVal.num 100)) =
      RouteResult.failure 400 "Invalid input" ∧
    getCommentsRoute demoStore "xzibit" =
      RouteResult.failure 400 "Invalid input" ∧
    postCommentRoute demoStore "xzibit"
        ⟨some (JVal.str "u"), some (JVal.str "b")⟩ 0 =
      RouteResult.failure 400 "Invalid input" :=
  malformed_id_routes_400 demoStore "xzibit" (some (JVal.num 100))
    ⟨some (JVal.str "u"), some (JVal.str "b")⟩ 0 (by decide)

/-- C2: a well-formed identifier that no stored article carries makes
each of the four routes respond 404 with the message Article not
found. -/
theorem missing_article_routes_404 (st : Store) (s : String) (id : Nat)
    (d : Int) (p : CommentPayload) (now : Nat)
    (h1 : parseId s = some id)
    (h2 : ∀ a ∈ st.articles, a.article_id ≠ id) :
    getArticleByIdRoute st s = RouteResult.failure 404 "Article not found" ∧
    patchArticleByIdRoute st s (some (JVal.num d)) =
      RouteResult.failure 404 "Article not found" ∧
    getCommentsRoute st s = RouteResult.failure 404 "Article not found" ∧
    postCommentRoute st s p now =
      RouteResult.failure 404 "Article not found" := by
  have hf : st.articles.find? (fun a => a.article_id == id) = none := by
    rw [List.find?_eq_none]
    intro a ha
    simpa using h2 a ha
  have hany : st.articles.any (fun a => a.article_id == id) = false := by
    rw [List.any_eq_false]
    intro a ha
    simpa using h2 a ha
  refine ⟨?_, ?_, ?_, ?_⟩ <;>
    simp [getArticleByIdRoute, patchArticleByIdRoute, getCommentsRoute,
      postCommentRoute, fetchArticle, updateArticleById,
      fetchCommentsByArticleId, createComment, toResponse, translateFailure,
      Except.map, h1, hf, hany]

/-- C2 witness: identifier 1688 is absent from the sample store and all
four routes answer 404 Article not found. -/
theorem missing_article_routes_404_witness :
    getArticleByIdRoute demoStore "1688" =
      RouteResult.failure 404 "Article not found" ∧
    patchArticleByIdRoute demoStore "1688" (some (JVal.num 100)) =
      RouteResult.failure 404 "Article not found" ∧
    getCommentsRoute demoStore "1688" =
      RouteResult.failure 404 "Article not found" ∧
    postCommentRoute demoStore "1688"
        ⟨some (JVal.str "u"), some (JVal.str "b")⟩ 0 =
      RouteResult.failure 404 "Article not found" :=
  missing_article_routes_404 demoStore "1688" 1688 100
    ⟨some (JVal.str "u"), some (JVal.str "b")⟩ 0 (by decide) (by decide)

/-- C5: on the comment-list route with a well-formed identifier, a
missing article is a 404 error, while an existing article with no
comments gives 200 with the empty list. -/
theorem comments_route_asymmetry (st : Store) (s : String) (id : Nat)
    (h1 : parseId s = some id) :
    ((st.articles.any fun a => a.article_id == id) = true →
      (st.comments.filter fun c => c.article_id == id) = [] →
      getCommentsRoute st s = RouteResult.success 200 []) ∧
    ((st.articles.any fun a => a.article_id == id) = false →
      getCommentsRoute st s =
        RouteResult.failure 404 "Article not found") := by
  constructor
  · intro hex hempty
    simp [getCommentsRoute, fetchCommentsByArticleId, toResponse, h1, hex,
      hempty]
  · intro hmiss
    simp [getCommentsRoute, fetchCommentsByArticleId, toResponse,
      translateFailure, h1, hmiss]

/-- C5 witness: in the sample store, article 2 exists with no comments
and answers 200 with an empty list, while the absent article 1689
answers 404; both through the same route. -/
theorem comments_route_asymmetry_witness :
    getCommentsRoute demoStore "2" = RouteResult.success 200 [] ∧
    getCommentsRoute demoStore "1689" =
      RouteResult.failure 404 "Article not found" :=
  ⟨(comments_route_asymmetry demoStore "2" 2 (by decide)).1 (by decide)
      (by decide),
   (comments_route_asymmetry demoStore "1689" 1689 (by decide)).2
      (by decide)⟩

/-- C6: posting a comment to an existing article with a payload missing
a required field gives 400 Invalid post input, while a payload whose
username has the wrong type gives 400 Invalid post data type, and the
two messages differ from each other and from Invalid input. -/
theorem post_comment_payload_errors (st : Store) (s : String) (id : Nat)
    (p : CommentPayload) (u : Int) (b : JVal) (now : Nat)
    (h1 : parseId s = some id)
    (h2 : (st.articles.any fun a => a.article_id == id) = true) :
    (p.username = none ∨ p.body = none →
      postCommentRoute st s p now =
        RouteResult.failure 400 "Invalid post input") ∧
    postCommentRoute st s ⟨some (JVal.num u), some b⟩ now =
      RouteResult.failure 400 "Invalid post data type" ∧
    ("Invalid post input" : String) ≠ "Invalid post data type" ∧
    ("Invalid post input" : String) ≠ "Invalid input" ∧
    ("Invalid post data type" : String) ≠ "Invalid input" := by
  refine ⟨?_, ?_, by decide, by decide, by decide⟩
  · intro hmiss
    have hv : validateCommentPayload p =
        Except.error Failure.invalidPostInput := by
      rcases hmiss with hm | hm
      · unfold validateCommentPayload
        rw [hm]
        cases hb : p.body with
        | none => rfl
        | some v => cases v <;> rfl
      · unfold validateCommentPayload
        rw [hm]
        cases hu : p.username with
        | none => rfl
        | some v => cases v <;> rfl
    simp [postCommentRoute, createComment, toResponse, translateFailure,
      Except.map, h1, h2, hv]
  · cases b <;>
      simp [postCommentRoute, createComment, validateCommentPayload,
        toResponse, translateFailure, Except.map, h1, h2]

/-- C6 witness: on the sample store, the two malformed payloads from the
test suite produce the two distinct 400 messages for article 1. -/
theorem post_comment_payload_errors_witness :
    postCommentRoute demoStore "1" ⟨none, some (JVal.str "text")⟩ 0 =
      RouteResult.failure 400 "Invalid post input" ∧
    postCommentRoute demoStore "1"
        ⟨some (JVal.num 1), some (JVal.str "text")⟩ 0 =
      RouteResult.failure 400 "Invalid post data type" :=
  ⟨(post_comment_payload_errors demoStore "1" 1
      ⟨none, some (JVal.str "text")⟩ 1 (JVal.str "text") 0 (by decide)
      (by decide)).1 (Or.inl rfl),
   (post_comment_payload_errors demoStore "1" 1
      ⟨none, some (JVal.str "text")⟩ 1 (JVal.str "text") 0 (by decide)
      (by decide)).2.1⟩

/-- After the store-side vote update, looking the article up again finds
exactly the updated row. -/
lemma find?_after_vote_update (l : List Article) (id : Nat) (d : Int)
    (a : Article) (h : l.find? (fun x => x.article_id == id) = some a) :
    (l.map (fun b =>
        if b.article_id == id then { b with votes := b.votes + d }
        else b)).find? (fun x => x.article_id == id) =
      some { a with votes := a.votes + d } := by
  rw [List.find?_map]
  have hpf : ((fun x : Article => x.article_id == id) ∘ (fun b : Article =>
      if b.article_id == id then { b with votes := b.votes + d } else b)) =
      (fun x : Article => x.article_id == id) := by
    funext b
    by_cases hne : b.article_id = id
    · simp [hne]
    · simp [hne]
  rw [hpf, h]
  have hpa0 := List.find?_some h
  have hpa : (a.article_id == id) = true := hpa0
  simp [Option.map, hpa]

/-- Evaluation of a successful vote update: the store row and the
returned row both carry the delta. -/
lemma updateArticleById_ok (st : Store) (s : String) (id : Nat)
    (a : Article) (d : Int) (h1 : parseId s = some id)
    (h2 : st.articles.find? (fun x => x.article_id == id) = some a) :
    updateArticleById st s (some (JVal.num d)) =
      Except.ok (⟨st.topics,
        st.articles.map (fun b =>
          if b.article_id == id then { b with votes := b.votes + d }
          else b),
        st.comments⟩, { a with votes := a.votes + d }) := by
  unfold updateArticleById
  rw [h1]
  dsimp only
  rw [h2]

/-- Both vote updates succeed in sequence and the final stored row
carries the sum of the two deltas. -/
lemma vote_update_twice (st : Store) (s : String) (id : Nat) (a : Article)
    (d1 d2 : Int) (h1 : parseId s = some id)
    (h2 : st.articles.find? (fun x => x.article_id == id) = some a) :
    ∃ st1, updateArticleById st s (some (JVal.num d1)) =
        Except.ok (st1, { a with votes := a.votes + d1 }) ∧
      ∃ st2, updateArticleById st1 s (some (JVal.num d2)) =
          Except.ok (st2, { a with votes := a.votes + d1 + d2 }) ∧
        st2.articles.find? (fun x => x.article_id == id) =
          some { a with votes := a.votes + d1 + d2 } := by
  have hf1 := find?_after_vote_update st.articles id d1 a h2
  refine ⟨⟨st.topics,
      st.articles.map (fun b =>
        if b.article_id == id then { b with votes := b.votes + d1 }
        else b), st.comments⟩,
    updateArticleById_ok st s id a d1 h1 h2,
    ⟨st.topics,
      (st.articles.map (fun b =>
        if b.article_id == id then { b with votes := b.votes + d1 }
        else b)).map (fun b =>
        if b.article_id == id then { b with votes := b.votes + d2 }
        else b), st.comments⟩, ?_, ?_⟩
  · exact updateArticleById_ok
      ⟨st.topics, st.articles.map (fun b =>
        if b.article_id == id then { b with votes := b.votes + d1 }
        else b), st.comments⟩
      s id { a with votes := a.votes + d1 } d2 h1 hf1
  · exact find?_after_vote_update _ id d2 _ hf1

/-- Applying the vote delta and then its negation leaves the articles
table exactly as it was. -/
lemma vote_update_cancel (l : List Article) (id : Nat) (d : Int) :
    ((l.map (fun b =>
        if b.article_id == id then { b with votes := b.votes + d }
        else b)).map (fun b =>
        if b.article_id == id then { b with votes := b.votes + (-d) }
        else b)) = l := by
  rw [List.map_map]
  have h : ∀ b ∈ l, ((fun b : Article =>
      if b.article_id == id then { b with votes := b.votes + (-d) }
      else b) ∘ (fun b : Article =>
      if b.article_id == id then { b with votes := b.votes + d }
      else b)) b = (fun b : Article => b) b := by
    intro b _
    cases b with
    | mk i t tp au bo ca v =>
      by_cases hb : i = id
      · subst hb
        simp
      · simp [hb]
  rw [List.map_congr_left h, List.map_id']

/-- C7: for any stored article, the vote update with delta d succeeds,
the route answers 200 with the article whose votes moved by d and every
other field unchanged, and a second update with delta negated d brings
the vote count and the whole articles table back to the original. -/
theorem patch_votes_roundtrip (st : Store) (s : String) (id : Nat)
    (a : Article) (d : Int)
    (h1 : parseId s = some id)
    (h2 : st.articles.find? (fun x => x.article_id == id) = some a) :
    ∃ st1, updateArticleById st s (some (JVal.num d)) =
        Except.ok (st1, { a with votes := a.votes + d }) ∧
      patchArticleByIdRoute st s (some (JVal.num d)) =
        RouteResult.success 200 { a with votes := a.votes + d } ∧
      ∃ st2 a2, updateArticleById st1 s (some (JVal.num (-d))) =
          Except.ok (st2, a2) ∧
        a2.votes = a.votes ∧ a2.article_id = a.article_id ∧
        st2.articles = st.articles := by
  have hf1 := find?_after_vote_update st.articles id d a h2
  have he1 := updateArticleById_ok st s id a d h1 h2
  refine ⟨⟨st.topics, st.articles.map (fun b =>
      if b.article_id == id then { b with votes := b.votes + d }
      else b), st.comments⟩, he1, ?_,
    ⟨st.topics, (st.articles.map (fun b =>
      if b.article_id == id then { b with votes := b.votes + d }
      else b)).map (fun b =>
      if b.article_id == id then { b with votes := b.votes + (-d) }
      else b), st.comments⟩,
    { a with votes := a.votes + d + -d },
    updateArticleById_ok
      ⟨st.topics, st.articles.map (fun b =>
        if b.article_id == id then { b with votes := b.votes + d }
        else b), st.comments⟩
      s id { a with votes := a.votes + d } (-d) h1 hf1,
    ?_, rfl, ?_⟩
  · simp [patchArticleByIdRoute, toResponse, Except.map, he1]
  · show a.votes + d + -d = a.votes
    omega
  · exact vote_update_cancel st.articles id d

/-- C7 witness: on the sample store, adding 100 votes to article 1,
whose votes are 100, answers 200 with votes 200 and the same other
fields, and adding negated 100 afterwards restores the store. -/
theorem patch_votes_roundtrip_witness :
    ∃ st1, updateArticleById demoStore "1" (some (JVal.num 100)) =
        Except.ok (st1,
          ⟨1, "Living in the shadow of a great man", "mitch",
           "butter_bridge", "I find this existence challenging",
           1594329060, 200⟩) ∧
      patchArticleByIdRoute demoStore "1" (some (JVal.num 100)) =
        RouteResult.success 200
          ⟨1, "Living in the shadow of a great man", "mitch",
           "butter_bridge", "I find this existence challenging",
           1594329060, 200⟩ ∧
      ∃ st2 a2, updateArticleById st1 "1" (some (JVal.num (-100))) =
          Except.ok (st2, a2) ∧
        a2.votes = 100 ∧ a2.article_id = 1 ∧
        st2.articles = demoStore.articles :=
  patch_votes_roundtrip demoStore "1" 1 demoArticle1 100 (by decide)
    (by decide)

/-- C9: the vote update is one atomic store step: any successful update
returns the row whose votes moved by the delta and that same row is what
the store then holds; running two updates in either order ends with the
stored votes carrying both deltas, so no delta is lost. -/
theorem patch_atomic_no_lost_update (st : Store) (s : String) (id : Nat)
    (a : Article) (d1 d2 : Int)
    (h1 : parseId s = some id)
    (h2 : st.articles.find? (fun x => x.article_id == id) = some a) :
    (∀ st1 a1, updateArticleById st s (some (JVal.num d1)) =
        Except.ok (st1, a1) →
      a1.votes = a.votes + d1 ∧
      st1.articles.find? (fun x => x.article_id == id) = some a1) ∧
    (∃ st1 st2, updateArticleById st s (some (JVal.num d1)) =
        Except.ok (st1, { a with votes := a.votes + d1 }) ∧
      updateArticleById st1 s (some (JVal.num d2)) =
        Except.ok (st2, { a with votes := a.votes + d1 + d2 }) ∧
      st2.articles.find? (fun x => x.article_id == id) =
        some { a with votes := a.votes + d1 + d2 }) ∧
    (∃ st1 st2, updateArticleById st s (some (JVal.num d2)) =
        Except.ok (st1, { a with votes := a.votes + d2 }) ∧
      updateArticleById st1 s (some (JVal.num d1)) =
        Except.ok (st2, { a with votes := a.votes + d2 + d1 }) ∧
      st2.articles.find? (fun x => x.article_id == id) =
        some { a with votes := a.votes + d2 + d1 } ∧
      a.votes + d2 + d1 = a.votes + d1 + d2) := by
  refine ⟨?_, ?_, ?_⟩
  · intro st1 a1 h
    rw [updateArticleById_ok st s id a d1 h1 h2] at h
    injection h with hpair
    rw [Prod.mk.injEq] at hpair
    obtain ⟨hst, ha⟩ := hpair
    subst hst
    subst ha
    exact ⟨rfl, find?_after_vote_update st.articles id d1 a h2⟩
  · obtain ⟨st1, hu1, st2, hu2, hf2⟩ :=
      vote_update_twice st s id a d1 d2 h1 h2
    exact ⟨st1, st2, hu1, hu2, hf2⟩
  · obtain ⟨st1, hu1, st2, hu2, hf2⟩ :=
      vote_update_twice st s id a d2 d1 h1 h2
    exact ⟨st1, st2, hu1, hu2, hf2, by omega⟩

/-- C9 witness: on the sample store, increments of 3 then 5 on article 1
both commit and the stored row ends with votes 108. -/
theorem patch_atomic_no_lost_update_witness :
    ∃ st1 st2, updateArticleById demoStore "1" (some (JVal.num 3)) =
        Except.ok (st1, { demoArticle1 with votes := 103 }) ∧
      updateArticleById st1 "1" (some (JVal.num 5)) =
        Except.ok (st2, { demoArticle1 with votes := 108 }) ∧
      st2.articles.find? (fun x => x.article_id == 1) =
        some { demoArticle1 with votes := 108 } := by
  obtain ⟨-, h2, -⟩ :=
    patch_atomic_no_lost_update demoStore "1" 1 demoArticle1 3 5
      (by decide) (by decide)
  exact h2

/-- natCmp answers lt exactly on smaller inputs. -/
lemma natCmp_eq_lt {a b : Nat} : natCmp a b = Ordering.lt ↔ a < b := by
  unfold natCmp
  split_ifs with hab hba <;> simp <;> omega

/-- natCmp answers gt exactly on larger inputs. -/
lemma natCmp_eq_gt {a b : Nat} : natCmp a b = Ordering.gt ↔ b < a := by
  unfold natCmp
  split_ifs with hab hba <;> simp <;> omega

/-- natCmp answers eq exactly on equal inputs. -/
lemma natCmp_eq_eq {a b : Nat} : natCmp a b = Ordering.eq ↔ a = b := by
  unfold natCmp
  split_ifs with hab hba <;> simp <;> omega

/-- On the default column the article comparison is just the creation
time comparison. -/
lemma articleKeyCmp_default (st : Store) (a b : Article) :
    articleKeyCmp st "created_at" a b = natCmp a.created_at b.created_at :=
  rfl

/-- The default sort relation spelled out: newer first, ties broken by
ascending article id. -/
lemma articleLE_default_iff (st : Store) (a b : Article) :
    articleLE st "created_at" false a b = true ↔
      b.created_at < a.created_at ∨
        (a.created_at = b.created_at ∧ a.article_id ≤ b.article_id) := by
  unfold articleLE
  rw [articleKeyCmp_default]
  cases h : natCmp a.created_at b.created_at with
  | lt =>
    rw [natCmp_eq_lt] at h
    simp only [Bool.false_eq_true, false_iff]
    omega
  | gt =>
    rw [natCmp_eq_gt] at h
    simp only [Bool.not_false, true_iff]
    omega
  | eq =>
    rw [natCmp_eq_eq] at h
    rw [Nat.ble_eq]
    omega

/-- The default sort relation is total. -/
lemma articleRel_default_total (st : Store) (a b : Article) :
    articleRel st "created_at" false a b ∨
      articleRel st "created_at" false b a := by
  unfold articleRel
  rw [articleLE_default_iff, articleLE_default_iff]
  omega

/-- The default sort relation is transitive. -/
lemma articleRel_default_trans (st : Store) (a b c : Article) :
    articleRel st "created_at" false a b →
      articleRel st "created_at" false b c →
      articleRel st "created_at" false a c := by
  unfold articleRel
  rw [articleLE_default_iff, articleLE_default_iff, articleLE_default_iff]
  omega

/-- Attaching comment counts does not change the underlying articles. -/
lemma map_article_sortWithCounts (st : Store) (col : String) (asc : Bool)
    (l : List Article) :
    (sortWithCounts st col asc l).map (fun r => r.article) =
      l.insertionSort (articleRel st col asc) := by
  unfold sortWithCounts
  rw [List.map_map]
  have hid : ((fun r : ArticleWithCount => r.article) ∘
      (fun a : Article =>
        (⟨a, Nat.repr (commentCount st a.article_id)⟩ : ArticleWithCount))) =
      (fun a : Article => a) := rfl
  rw [hid, List.map_id']

/-- C3: listing articles with no query parameters succeeds with every
stored article, ordered by creation time descending and, for equal
creation times, by ascending article id, so the output order is
deterministic. -/
theorem getArticles_default_sorted (st : Store) :
    ∃ l, getArticlesRoute st none none none = RouteResult.success 200 l ∧
      (l.map (fun r => r.article)).Perm st.articles ∧
      l.Pairwise (fun x y =>
        y.article.created_at < x.article.created_at ∨
          (x.article.created_at = y.article.created_at ∧
            x.article.article_id ≤ y.article.article_id)) := by
  refine ⟨sortWithCounts st "created_at" false st.articles, rfl, ?_, ?_⟩
  · rw [map_article_sortWithCounts]
    exact List.perm_insertionSort _ _
  · unfold sortWithCounts
    rw [List.pairwise_map]
    haveI : IsTotal Article (articleRel st "created_at" false) :=
      ⟨articleRel_default_total st⟩
    haveI : IsTrans Article (articleRel st "created_at" false) :=
      ⟨articleRel_default_trans st⟩
    have hs := List.sorted_insertionSort (articleRel st "created_at" false)
      st.articles
    exact List.Pairwise.imp
      (fun hxy => (articleLE_default_iff st _ _).mp hxy) hs

/-- Listing with default sort and a topic filter reduces to the topic
existence check. -/
lemma fetchAllArticles_default_topic (st : Store) (t : String) :
    fetchAllArticles st none none (some t) =
      match st.topics.any (fun tp => tp.slug == t) with
      | false => Except.error Failure.topicNotFound
      | true => Except.ok (sortWithCounts st "created_at" false
          (st.articles.filter (fun a => a.topic == t))) :=
  rfl

/-- C4: filtering the article listing by an existing topic answers 200
with exactly the articles of that topic, while filtering by an unknown
topic answers 404, never 200 with an empty list. -/
theorem getArticles_topic_filter (st : Store) (t : String) :
    ((st.topics.any fun tp => tp.slug == t) = true →
      ∃ l, getArticlesRoute st none none (some t) =
          RouteResult.success 200 l ∧
        (l.map fun r => r.article).Perm
          (st.articles.filter fun a => a.topic == t) ∧
        ∀ r ∈ l, r.article.topic = t) ∧
    ((st.topics.any fun tp => tp.slug == t) = false →
      getArticlesRoute st none none (some t) =
        RouteResult.failure 404 "Topic not found") := by
  constructor
  · intro h
    refine ⟨sortWithCounts st "created_at" false
      (st.articles.filter fun a => a.topic == t), ?_, ?_, ?_⟩
    · unfold getArticlesRoute
      rw [fetchAllArticles_default_topic, h]
      rfl
    · rw [map_article_sortWithCounts]
      exact List.perm_insertionSort _ _
    · intro r hr
      unfold sortWithCounts at hr
      rw [List.mem_map] at hr
      obtain ⟨a, ha, rfl⟩ := hr
      rw [List.mem_insertionSort, List.mem_filter] at ha
      simpa using ha.2
  · intro h
    unfold getArticlesRoute
    rw [fetchAllArticles_default_topic, h]
    rfl

/-- C4 witness: on the sample store the existing topic answers 200 with
its two articles and the unknown topic answers 404. -/
theorem getArticles_topic_filter_witness :
    (∃ l, getArticlesRoute demoStore none none (some "mitch") =
        RouteResult.success 200 l ∧
      (l.map fun r => r.article).Perm
        (demoStore.articles.filter fun a => a.topic == "mitch") ∧
      ∀ r ∈ l, r.article.topic = "mitch") ∧
    getArticlesRoute demoStore none none (some "nope") =
      RouteResult.failure 404 "Topic not found" :=
  ⟨(getArticles_topic_filter demoStore "mitch").1 (by decide),
   (getArticles_topic_filter demoStore "nope").2 (by decide)⟩

/-- Any row produced by sortWithCounts carries the rendered count of the
comments stored against its own article id. -/
lemma sortWithCounts_count (st : Store) (col : String) (asc : Bool)
    (l : List Article) (r : ArticleWithCount)
    (h : r ∈ sortWithCounts st col asc l) :
    r.comment_count = Nat.repr
      ((st.comments.filter fun c =>
        c.article_id == r.article.article_id).length) := by
  unfold sortWithCounts at h
  rw [List.mem_map] at h
  obtain ⟨a, -, rfl⟩ := h
  rfl

/-- A successful article listing is always a sorted list with counts
attached, whatever the query options were. -/
lemma fetchAllArticles_ok_shape (st : Store) (so oo tq : Option String)
    (l : List ArticleWithCount)
    (h : fetchAllArticles st so oo tq = Except.ok l) :
    ∃ col asc lsrc, l = sortWithCounts st col asc lsrc := by
  unfold fetchAllArticles at h
  dsimp only at h
  repeat' split at h
  all_goals
    first
      | exact Except.noConfusion h
      | (injection h with h2
         exact ⟨_, _, _, h2.symm⟩)

/-- C8: every successful article read response, from the listing or from
fetch by id, carries a comment_count that is the string rendering of the
number of comments stored against that article. -/
theorem comment_count_is_string_of_count (st : Store) (s : String)
    (so oo tq : Option String) :
    (∀ r, getArticleByIdRoute st s = RouteResult.success 200 r →
      r.comment_count = Nat.repr
        ((st.comments.filter fun c =>
          c.article_id == r.article.article_id).length)) ∧
    (∀ l, getArticlesRoute st so oo tq = RouteResult.success 200 l →
      ∀ r ∈ l, r.comment_count = Nat.repr
        ((st.comments.filter fun c =>
          c.article_id == r.article.article_id).length)) := by
  constructor
  · intro r hr
    unfold getArticleByIdRoute toResponse at hr
    split at hr
    · rename_i v heq
      injection hr with h200 hv
      subst hv
      unfold fetchArticle at heq
      split at heq
      · exact Except.noConfusion heq
      · rename_i id hparse
        split at heq
        · exact Except.noConfusion heq
        · rename_i a hfind
          injection heq with h2
          subst h2
          have hpa0 := List.find?_some hfind
          have haid : a.article_id = id := by simpa using hpa0
          show Nat.repr (commentCount st id) = _
          rw [← haid]
          rfl
    · exact RouteResult.noConfusion hr
  · intro l hl r hr
    unfold getArticlesRoute toResponse at hl
    split at hl
    · rename_i v heq
      injection hl with h200 hv
      subst hv
      obtain ⟨col, asc, lsrc, rfl⟩ :=
        fetchAllArticles_ok_shape st so oo tq _ heq
      exact sortWithCounts_count st col asc lsrc r hr
    · exact RouteResult.noConfusion hl

/-- C8 witness: on the sample store, article 1 comes back with
comment_count equal to the rendered length of its comment list. -/
theorem comment_count_is_string_of_count_witness :
    (⟨demoArticle1, "2"⟩ : ArticleWithCount).comment_count =
      Nat.repr ((demoStore.comments.filter fun c =>
        c.article_id == demoArticle1.article_id).length) :=
  (comment_count_is_string_of_count demoStore "1" none none none).1
    ⟨demoArticle1, "2"⟩ (by decide)

/-- C10: article creation is insert then re-fetch, two sequential store
operations; when the re-fetch round trip fails after the insert has
committed, the client receives the translated failure while the inserted
article stays in the store. -/
theorem postArticle_insert_then_fetch_not_atomic (st : Store)
    (p : ArticlePayload) (now : Nat) (e : Failure)
    (v : String × String × String × String)
    (h : validateArticlePayload p = Except.ok v) :
    ∃ st2, postArticleCtrl st p now (some e) =
        (st2, RouteResult.failure (translateFailure e).1
          (translateFailure e).2) ∧
      st2.articles.length = st.articles.length + 1 ∧
      ∃ a ∈ st2.articles, a.article_id = nextArticleId st := by
  obtain ⟨t, tp, au, b⟩ := v
  refine ⟨⟨st.topics,
    st.articles ++ [⟨nextArticleId st, t, tp, au, b, now, 0⟩],
    st.comments⟩, ?_, ?_, ?_⟩
  · unfold postArticleCtrl createArticle
    rw [h]
  · simp
  · exact ⟨⟨nextArticleId st, t, tp, au, b, now, 0⟩, by simp, rfl⟩

/-- C10 witness: a concrete valid payload on the sample store, with the
re-fetch failing, leaves the new article persisted while the response is
the translated 500 failure. -/
theorem postArticle_insert_then_fetch_not_atomic_witness :
    ∃ st2, postArticleCtrl demoStore
        ⟨some (JVal.str "t"), some (JVal.str "mitch"),
         some (JVal.str "a"), some (JVal.str "b")⟩ 7
        (some Failure.unhandled) =
        (st2, RouteResult.failure 500 "Internal Server Error") ∧
      st2.articles.length = demoStore.articles.length + 1 ∧
      ∃ a ∈ st2.articles, a.article_id = nextArticleId demoStore :=
  postArticle_insert_then_fetch_not_atomic demoStore
    ⟨some (JVal.str "t"), some (JVal.str "mitch"),
     some (JVal.str "a"), some (JVal.str "b")⟩ 7 Failure.unhandled
    ("t", "mitch", "a", "b") rfl
